import Mathlib

/-!
Shallow embedding of `src/authFlow.ts` (CoachesCorner): a local OAuth2
authorization-code helper and thin proxy for the Yahoo fantasy-sports API.

The process state is the single mutable variable `accessToken` (line 32 of the
source, `string | null`, but at runtime `data.access_token` may store any JSON
value or `undefined`); we model it as `Option Json`, where `none` stands for
both `null` and `undefined`. Outbound HTTP is modelled by oracles: the token
exchange is an `Except String Json` (error = network failure or non-2xx, as
axios rejects exactly then; an `ok` carries the parsed 2xx body — axios does
NOT reject on a body of unexpected shape), and the remote data API is a
function `String → Except String Json` from URL to result. Each handler is a
pure function from the state and its oracles to an output record holding the
HTTP response, the new state, and the outbound requests it issued.
-/

/-- A JSON value, as delivered by axios as `data`. A non-JSON 2xx body is
delivered by axios as a raw string, i.e. `Json.str`. -/
inductive Json where
  | null : Json
  | bool : Bool → Json
  | num : Int → Json
  | str : String → Json
  | arr : List Json → Json
  | obj : List (String × Json) → Json

/-- JavaScript truthiness of a JSON value (`!x` in the source negates this). -/
def Json.truthy : Json → Bool
  | .null => false
  | .bool b => b
  | .num n => if n = 0 then false else true
  | .str s => if s = "" then false else true
  | .arr _ => true
  | .obj _ => true

/-- Truthiness of the `accessToken` slot (`none` = `null`/`undefined`, falsy). -/
def tokenTruthy : Option Json → Bool
  | none => false
  | some j => j.truthy

/-- Object-field lookup with JavaScript/JSON.parse last-key-wins semantics. -/
def lookupField (fs : List (String × Json)) (k : String) : Option Json :=
  fs.foldl (fun acc p => if p.1 = k then some p.2 else acc) none

/-- JavaScript property access `v.k`. Accessing a property of `undefined` or
`null` throws a TypeError (the `Except.error`); on other primitives and on
arrays our fields are absent, yielding `undefined` (`Option` value `none`). -/
def jsGetProp : Option Json → String → Except Unit (Option Json)
  | none, _ => .error ()
  | some .null, _ => .error ()
  | some (.obj fs), k => .ok (lookupField fs k)
  | some _, _ => .ok none

/-- JavaScript index access `v[i]`. Same throw behaviour on `undefined`/`null`;
arrays index positionally, objects look the decimal key up. -/
def jsGetIndex : Option Json → Nat → Except Unit (Option Json)
  | none, _ => .error ()
  | some .null, _ => .error ()
  | some (.arr xs), i => .ok (xs.get? i)
  | some (.obj fs), i => .ok (lookupField fs (toString i))
  | some _, _ => .ok none

mutual

/-- JavaScript string conversion of a JSON value, as in template literals. -/
def Json.render : Json → String
  | .null => "null"
  | .bool b => cond b "true" "false"
  | .num n => toString n
  | .str s => s
  | .arr xs => Json.renderElems xs
  | .obj _ => "[object Object]"

/-- Array elements joined by commas, as `Array.prototype.toString` does. -/
def Json.renderElems : List Json → String
  | [] => ""
  | [x] => Json.renderElem x
  | x :: xs => Json.renderElem x ++ "," ++ Json.renderElems xs

/-- An array element renders like the value itself except `null` renders empty. -/
def Json.renderElem : Json → String
  | .null => ""
  | .bool b => cond b "true" "false"
  | .num n => toString n
  | .str s => s
  | .arr xs => Json.renderElems xs
  | .obj _ => "[object Object]"

end

/-- Template-literal interpolation of a possibly-`undefined` value. -/
def jsTemplate : Option Json → String
  | none => "undefined"
  | some j => j.render

/-- An Express query-parameter value: a string or an array of strings
(the remaining `ParsedQs` shapes behave identically to the array case for
every check the source performs: non-string under `typeof`, truthy). -/
inductive QueryVal where
  | str : String → QueryVal
  | strList : List String → QueryVal

/-- `typeof v === "string"` for an optional query value. -/
def isStringParam : Option QueryVal → Bool
  | some (.str _) => true
  | _ => false

/-- JavaScript truthiness of a query value (`""` is falsy, arrays are truthy). -/
def QueryVal.truthy : QueryVal → Bool
  | .str s => if s = "" then false else true
  | .strList _ => true

/-- Template rendering of a query value (arrays join with commas). -/
def QueryVal.render : QueryVal → String
  | .str s => s
  | .strList ss => String.intercalate "," ss

/-- `req.query.week || "current"` followed by template interpolation
(source line 130 and line 140). -/
def weekString : Option QueryVal → String
  | some q => if q.truthy then q.render else "current"
  | none => "current"

/-- Body of an HTTP response sent by the gateway: `res.send` text or
`res.json` JSON. -/
inductive ResBody where
  | text : String → ResBody
  | json : Json → ResBody

/-- An HTTP response sent by the gateway. -/
structure HttpResponse where
  status : Nat
  body : ResBody

/-- An outbound authenticated GET issued via axios: its URL and the value of
its `Authorization` header. -/
structure OutReq where
  url : String
  authHeader : String

/-- Output of one `/callback` invocation: the response, the value of
`accessToken` afterwards, and whether the outbound token-exchange POST was
issued. -/
structure CallbackOut where
  resp : HttpResponse
  newToken : Option Json
  exchangeAttempted : Bool

/-- Output of one data-route invocation: the response, the value of
`accessToken` afterwards (data routes never assign it), and the outbound
authenticated GETs issued, in order. -/
structure RouteOut where
  resp : HttpResponse
  newToken : Option Json
  calls : List OutReq

/-- The `/callback` handler (source lines 41-68). `code` is
`req.query.code`; `exchange` is the outcome of the axios POST to the token
endpoint for this invocation. On a 2xx outcome the handler stores
`data.access_token` unconditionally (`accessToken = data.access_token`,
line 62): if `data` is `null` the property access throws and the catch block
answers 500; otherwise a missing field stores `undefined`. -/
def callbackHandler (accessToken : Option Json) (code : Option QueryVal)
    (exchange : Except String Json) : CallbackOut :=
  match code with
  | some (.str _) =>
    match exchange with
    | .ok data =>
      match jsGetProp (some data) "access_token" with
      | .ok tok =>
        ⟨⟨200, .text "Authentication successful! You can close this window."⟩, tok, true⟩
      | .error _ =>
        ⟨⟨500, .text "Authentication failed"⟩, accessToken, true⟩
    | .error _ =>
      ⟨⟨500, .text "Authentication failed"⟩, accessToken, true⟩
  | _ =>
    ⟨⟨400, .text "Invalid authorization code"⟩, accessToken, false⟩

/-- Failure of `makeAuthenticatedRequest`: the `Not authenticated` throw, or a
propagated axios error carrying the underlying detail. -/
inductive ReqError where
  | notAuthenticated : ReqError
  | requestFailed : String → ReqError

/-- `makeAuthenticatedRequest` (source lines 71-88): throws if the token slot
is falsy, otherwise issues a GET with header `Authorization: Bearer <token>`
and either returns the parsed body or rethrows the axios error. The second
component lists the outbound requests issued. -/
def makeAuthenticatedRequest (accessToken : Option Json)
    (api : String → Except String Json) (url : String) :
    Except ReqError Json × List OutReq :=
  if tokenTruthy accessToken = false then (.error .notAuthenticated, [])
  else
    match api url with
    | .ok data => (.ok data, [⟨url, "Bearer " ++ jsTemplate accessToken⟩])
    | .error e => (.error (.requestFailed e), [⟨url, "Bearer " ++ jsTemplate accessToken⟩])

/-- The fixed 401 response every data route sends when the token is absent. -/
def notAuthResp : HttpResponse := ⟨401, .text "Not authenticated. Please authenticate first."⟩

/-- URL requested by `/test` (source line 98). -/
def testApiUrl : String :=
  "https://fantasysports.yahooapis.com/fantasy/v2/users;use_login=1/games?format=json"

/-- URL of the NHL league list (source lines 114, 134, 157). -/
def leaguesApiUrl : String :=
  "https://fantasysports.yahooapis.com/fantasy/v2/users;use_login=1/games;game_keys=nhl/leagues?format=json"

/-- Scoreboard URL template (source line 140). -/
def scoreboardApiUrl (leagueKey week : String) : String :=
  "https://fantasysports.yahooapis.com/fantasy/v2/league/" ++ leagueKey ++
    "/scoreboard;week=" ++ week ++ "?format=json"

/-- Teams URL template (source line 163). -/
def teamsApiUrl (leagueKey : String) : String :=
  "https://fantasysports.yahooapis.com/fantasy/v2/league/" ++ leagueKey ++ "/teams?format=json"

/-- The `/test` handler (source lines 91-104). -/
def testHandler (accessToken : Option Json)
    (api : String → Except String Json) : RouteOut :=
  if tokenTruthy accessToken = false then ⟨notAuthResp, accessToken, []⟩
  else
    match makeAuthenticatedRequest accessToken api testApiUrl with
    | (.ok data, reqs) => ⟨⟨200, .json data⟩, accessToken, reqs⟩
    | (.error _, reqs) =>
      ⟨⟨500, .text "Error making authenticated request"⟩, accessToken, reqs⟩

/-- The `/nhl-leagues` handler (source lines 107-120). -/
def nhlLeaguesHandler (accessToken : Option Json)
    (api : String → Except String Json) : RouteOut :=
  if tokenTruthy accessToken = false then ⟨notAuthResp, accessToken, []⟩
  else
    match makeAuthenticatedRequest accessToken api leaguesApiUrl with
    | (.ok data, reqs) => ⟨⟨200, .json data⟩, accessToken, reqs⟩
    | (.error _, reqs) =>
      ⟨⟨500, .text "Error fetching NHL league information"⟩, accessToken, reqs⟩

/-- The league-key extraction
`leaguesData.fantasy_content.users[0].user[1].games[0].game[1].leagues[0].league[0].league_key`
(source lines 137 and 160); an `Except.error` is a thrown TypeError, caught by
the catch block of the calling route. -/
def extractLeagueKey (leaguesData : Json) : Except Unit (Option Json) := do
  let a ← jsGetProp (some leaguesData) "fantasy_content"
  let b ← jsGetProp a "users"
  let c ← jsGetIndex b 0
  let d ← jsGetProp c "user"
  let e ← jsGetIndex d 1
  let f ← jsGetProp e "games"
  let g ← jsGetIndex f 0
  let h ← jsGetProp g "game"
  let i ← jsGetIndex h 1
  let j ← jsGetProp i "leagues"
  let k ← jsGetIndex j 0
  let l ← jsGetProp k "league"
  let m ← jsGetIndex l 0
  jsGetProp m "league_key"

/-- The `/nhl-matchups` handler (source lines 123-147): league list first,
positional extraction of the first league key, then the scoreboard call for
`week` (defaulted by `||` to `"current"`); any caught failure answers the
fixed 500 message. -/
def nhlMatchupsHandler (accessToken : Option Json) (week : Option QueryVal)
    (api : String → Except String Json) : RouteOut :=
  if tokenTruthy accessToken = false then ⟨notAuthResp, accessToken, []⟩
  else
    match makeAuthenticatedRequest accessToken api leaguesApiUrl with
    | (.ok leaguesData, reqs1) =>
      match extractLeagueKey leaguesData with
      | .ok leagueKey =>
        match makeAuthenticatedRequest accessToken api
            (scoreboardApiUrl (jsTemplate leagueKey) (weekString week)) with
        | (.ok matchupsData, reqs2) =>
          ⟨⟨200, .json matchupsData⟩, accessToken, reqs1 ++ reqs2⟩
        | (.error _, reqs2) =>
          ⟨⟨500, .text "Error fetching NHL matchup information"⟩, accessToken, reqs1 ++ reqs2⟩
      | .error _ =>
        ⟨⟨500, .text "Error fetching NHL matchup information"⟩, accessToken, reqs1⟩
    | (.error _, reqs1) =>
      ⟨⟨500, .text "Error fetching NHL matchup information"⟩, accessToken, reqs1⟩

/-- The `/nhl-teams` handler (source lines 150-170). -/
def nhlTeamsHandler (accessToken : Option Json)
    (api : String → Except String Json) : RouteOut :=
  if tokenTruthy accessToken = false then ⟨notAuthResp, accessToken, []⟩
  else
    match makeAuthenticatedRequest accessToken api leaguesApiUrl with
    | (.ok leaguesData, reqs1) =>
      match extractLeagueKey leaguesData with
      | .ok leagueKey =>
        match makeAuthenticatedRequest accessToken api
            (teamsApiUrl (jsTemplate leagueKey)) with
        | (.ok teamsData, reqs2) =>
          ⟨⟨200, .json teamsData⟩, accessToken, reqs1 ++ reqs2⟩
        | (.error _, reqs2) =>
          ⟨⟨500, .text "Error fetching NHL team information"⟩, accessToken, reqs1 ++ reqs2⟩
      | .error _ =>
        ⟨⟨500, .text "Error fetching NHL team information"⟩, accessToken, reqs1⟩
    | (.error _, reqs1) =>
      ⟨⟨500, .text "Error fetching NHL team information"⟩, accessToken, reqs1⟩

/-- One complete run of any route handler, viewed as a transition on the
`accessToken` state. The `/auth` redirect handler (source lines 35-38) never
touches the token; data routes return it unchanged by construction of their
definitions; only the callback may assign it (source line 62). -/
inductive HandlerStep : Option Json → Option Json → Prop where
  | authStep (st : Option Json) : HandlerStep st st
  | callbackStep (st : Option Json) (q : Option QueryVal) (ex : Except String Json) :
      HandlerStep st (callbackHandler st q ex).newToken
  | testStep (st : Option Json) (api : String → Except String Json) :
      HandlerStep st (testHandler st api).newToken
  | leaguesStep (st : Option Json) (api : String → Except String Json) :
      HandlerStep st (nhlLeaguesHandler st api).newToken
  | matchupsStep (st : Option Json) (w : Option QueryVal)
      (api : String → Except String Json) :
      HandlerStep st (nhlMatchupsHandler st w api).newToken
  | teamsStep (st : Option Json) (api : String → Except String Json) :
      HandlerStep st (nhlTeamsHandler st api).newToken

/-- A concrete league-key leaf for test fixtures. -/
def sampleLeagueEntry : Json := .obj [("league_key", .str "427.l.17")]

/-- The `leagues` level of the fixture response. -/
def sampleLeaguesField : Json :=
  .obj [("leagues", .arr [.obj [("league", .arr [sampleLeagueEntry])]])]

/-- The `games` level of the fixture response. -/
def sampleGamesField : Json :=
  .obj [("games", .arr [.obj [("game", .arr [.str "nhl", sampleLeaguesField])]])]

/-- The `users` level of the fixture response. -/
def sampleUsersField : Json :=
  .obj [("users", .arr [.obj [("user", .arr [.obj [], sampleGamesField])]])]

/-- A concrete league-list response of the shape the positional extraction
expects, with league key `427.l.17`. -/
def sampleLeagueVal : Json := .obj [("fantasy_content", sampleUsersField)]

/-- A concrete remote-API stub: the league list answers `sampleLeagueVal`,
every other URL answers a plain payload. -/
def sampleApi : String → Except String Json := fun u =>
  if u = leaguesApiUrl then .ok sampleLeagueVal else .ok (.str "payload")

/-- The `/test` handler never assigns the token slot. -/
theorem testHandler_newToken (st : Option Json) (api : String → Except String Json) :
    (testHandler st api).newToken = st := by
  unfold testHandler
  split
  · rfl
  · split <;> rfl

/-- The `/nhl-leagues` handler never assigns the token slot. -/
theorem nhlLeaguesHandler_newToken (st : Option Json) (api : String → Except String Json) :
    (nhlLeaguesHandler st api).newToken = st := by
  unfold nhlLeaguesHandler
  split
  · rfl
  · split <;> rfl

/-- The `/nhl-matchups` handler never assigns the token slot. -/
theorem nhlMatchupsHandler_newToken (st : Option Json) (w : Option QueryVal)
    (api : String → Except String Json) :
    (nhlMatchupsHandler st w api).newToken = st := by
  unfold nhlMatchupsHandler
  split
  · rfl
  · split
    · split
      · split <;> rfl
      · rfl
    · rfl

/-- The `/nhl-teams` handler never assigns the token slot. -/
theorem nhlTeamsHandler_newToken (st : Option Json) (api : String → Except String Json) :
    (nhlTeamsHandler st api).newToken = st := by
  unfold nhlTeamsHandler
  split
  · rfl
  · split
    · split
      · split <;> rfl
      · rfl
    · rfl

/-- C1 (counterexample): a token exchange that resolves 2xx with a malformed
(non-JSON) body is not answered 500 — the handler answers 200 and the Token
Store changes from a present token to the absent marker, because axios only
rejects on network errors and non-2xx statuses, and `data.access_token` on a
raw string body is `undefined`. -/
theorem c1_malformed_body_counterexample :
    (callbackHandler (some (.str "OLD")) (some (.str "abc")) (.ok (.str "oops"))).resp.status
        = 200 ∧
    (callbackHandler (some (.str "OLD")) (some (.str "abc")) (.ok (.str "oops"))).newToken
        = none :=
  ⟨rfl, rfl⟩

/-- C1 (amended): for every invocation of `/callback` with a string `code`
whose outbound token exchange rejects (network error or non-2xx response),
the handler answers HTTP 500 with the generic failure message and the Token
Store is unchanged. A 2xx response with a malformed body is instead treated
as success. -/
theorem c1_exchange_rejection_gives_500 (st : Option Json) (c e : String) :
    callbackHandler st (some (.str c)) (.error e) =
      ⟨⟨500, .text "Authentication failed"⟩, st, true⟩ := rfl

/-- C2 (counterexample): from the Authenticated state there is a handler step
other than process restart that makes the token absent again — a callback
whose exchange resolves 2xx with a body lacking `access_token` answers 200
yet leaves the store falsy. -/
theorem c2_token_loss_counterexample :
    tokenTruthy (some (.str "TOK")) = true ∧
    HandlerStep (some (.str "TOK")) none ∧
    tokenTruthy none = false ∧
    (callbackHandler (some (.str "TOK")) (some (.str "cb"))
        (.ok (.obj [("token_type", .str "bearer")]))).resp.status = 200 :=
  ⟨rfl,
   HandlerStep.callbackStep (some (.str "TOK")) (some (.str "cb"))
     (.ok (.obj [("token_type", .str "bearer")])),
   rfl, rfl⟩

/-- C2 (amended): once the Token Store holds a truthy token, every handler
step other than a successful callback leaves the slot exactly unchanged (all
four data routes, a callback with a missing or non-string code, a callback
whose exchange rejects, and a callback whose 2xx body is `null` so the
property access throws), and a callback whose exchange resolves 2xx with
body `d` sets the slot to the field `access_token` of `d`: the token stays
present whenever that field is truthy, and the store becomes absent exactly
in the remaining case — a 200-answering callback whose body field
`access_token` is absent or falsy. -/
theorem c2_token_persistence (st : Option Json) (_h1 : tokenTruthy st = true) :
    (∀ api : String → Except String Json, (testHandler st api).newToken = st) ∧
    (∀ api : String → Except String Json, (nhlLeaguesHandler st api).newToken = st) ∧
    (∀ (w : Option QueryVal) (api : String → Except String Json),
        (nhlMatchupsHandler st w api).newToken = st) ∧
    (∀ api : String → Except String Json, (nhlTeamsHandler st api).newToken = st) ∧
    (∀ (q : Option QueryVal) (ex : Except String Json), isStringParam q = false →
        (callbackHandler st q ex).newToken = st) ∧
    (∀ c e : String, (callbackHandler st (some (.str c)) (.error e)).newToken = st) ∧
    (∀ (c : String) (d : Json), jsGetProp (some d) "access_token" = .error () →
        (callbackHandler st (some (.str c)) (.ok d)).newToken = st) ∧
    (∀ (c : String) (d : Json) (t : Option Json),
        jsGetProp (some d) "access_token" = .ok t →
        (callbackHandler st (some (.str c)) (.ok d)).newToken = t ∧
        (tokenTruthy t = true →
          tokenTruthy (callbackHandler st (some (.str c)) (.ok d)).newToken = true) ∧
        (tokenTruthy t = false →
          (callbackHandler st (some (.str c)) (.ok d)).resp =
            ⟨200, .text "Authentication successful! You can close this window."⟩ ∧
          tokenTruthy (callbackHandler st (some (.str c)) (.ok d)).newToken = false)) := by
  refine ⟨fun api => testHandler_newToken st api,
    fun api => nhlLeaguesHandler_newToken st api,
    fun w api => nhlMatchupsHandler_newToken st w api,
    fun api => nhlTeamsHandler_newToken st api, ?_, ?_, ?_, ?_⟩
  · intro q ex hq
    match q with
    | none => rfl
    | some (.strList ss) => rfl
    | some (.str c) => simp [isStringParam] at hq
  · intro c e
    rfl
  · intro c d hp
    simp [callbackHandler, hp]
  · intro c d t hp
    refine ⟨by simp [callbackHandler, hp], ?_, ?_⟩
    · intro htt
      simp [callbackHandler, hp, htt]
    · intro htf
      exact ⟨by simp [callbackHandler, hp], by simp [callbackHandler, hp, htf]⟩

/-- C2 (witness): the persistence theorem applied at a concrete present token
`TOKP`: a failing data route preserves the slot, and the concrete 2xx
empty-object callback answers 200 while leaving the slot falsy. -/
theorem c2_token_persistence_witness :
    tokenTruthy (some (.str "TOKP")) = true ∧
    (testHandler (some (.str "TOKP")) (fun _ => .error "x")).newToken = some (.str "TOKP") ∧
    ((callbackHandler (some (.str "TOKP")) (some (.str "cp")) (.ok (.obj []))).resp =
        ⟨200, .text "Authentication successful! You can close this window."⟩ ∧
      tokenTruthy
        (callbackHandler (some (.str "TOKP")) (some (.str "cp")) (.ok (.obj []))).newToken
        = false) :=
  ⟨rfl, (c2_token_persistence (some (.str "TOKP")) rfl).1 (fun _ => .error "x"),
    ((c2_token_persistence (some (.str "TOKP")) rfl).2.2.2.2.2.2.2 "cp" (.obj [])
      none rfl).2.2 rfl⟩

/-- C3: a callback whose exchange resolves 2xx with body holding
`access_token` equal to a nonempty string `t` answers 200, leaves the Token
Store holding `t`, and every subsequent authenticated request issues its
outbound GET with header `Authorization: Bearer t`. -/
theorem c3_success_stores_token_and_bearer (st : Option Json) (c t : String)
    (ht : t ≠ "") :
    (callbackHandler st (some (.str c)) (.ok (.obj [("access_token", .str t)]))).resp =
      ⟨200, .text "Authentication successful! You can close this window."⟩ ∧
    (callbackHandler st (some (.str c)) (.ok (.obj [("access_token", .str t)]))).newToken =
      some (.str t) ∧
    ∀ (api : String → Except String Json) (url : String),
      (makeAuthenticatedRequest (some (.str t)) api url).2 = [⟨url, "Bearer " ++ t⟩] := by
  refine ⟨rfl, rfl, fun api url => ?_⟩
  cases hres : api url <;>
    simp [makeAuthenticatedRequest, tokenTruthy, Json.truthy, ht, hres, jsTemplate, Json.render]

/-- C3 (witness): concrete token `T` after a successful exchange. -/
theorem c3_success_witness :
    ("T" : String) ≠ "" ∧
    ((callbackHandler (some (.str "OLD3")) (some (.str "c3"))
        (.ok (.obj [("access_token", .str "T")]))).resp =
      ⟨200, .text "Authentication successful! You can close this window."⟩ ∧
    (callbackHandler (some (.str "OLD3")) (some (.str "c3"))
        (.ok (.obj [("access_token", .str "T")]))).newToken = some (.str "T") ∧
    ∀ (api : String → Except String Json) (url : String),
      (makeAuthenticatedRequest (some (.str "T")) api url).2 = [⟨url, "Bearer " ++ "T"⟩]) :=
  ⟨by decide, c3_success_stores_token_and_bearer (some (.str "OLD3")) "c3" "T" (by decide)⟩

/-- C4: a callback whose `code` query parameter is missing or not a string
answers 400, never issues the token-exchange POST, and leaves the Token Store
unchanged. -/
theorem c4_invalid_code_400 (st : Option Json) (q : Option QueryVal)
    (ex : Except String Json) (hq : isStringParam q = false) :
    callbackHandler st q ex = ⟨⟨400, .text "Invalid authorization code"⟩, st, false⟩ := by
  match q with
  | none => rfl
  | some (.strList ss) => rfl
  | some (.str c) => simp [isStringParam] at hq

/-- C4 (witness): concrete missing `code`. -/
theorem c4_invalid_code_witness :
    isStringParam none = false ∧
    callbackHandler (some (.str "K4")) none (.ok (.str "body")) =
      ⟨⟨400, .text "Invalid authorization code"⟩, some (.str "K4"), false⟩ :=
  ⟨rfl, c4_invalid_code_400 (some (.str "K4")) none (.ok (.str "body")) rfl⟩

/-- C5: each of the four data routes, invoked while the token slot is falsy,
answers the fixed 401 message, issues no outbound call, and leaves the store
unchanged. -/
theorem c5_routes_401_without_token (st : Option Json) (w : Option QueryVal)
    (api : String → Except String Json) (h : tokenTruthy st = false) :
    testHandler st api = ⟨notAuthResp, st, []⟩ ∧
    nhlLeaguesHandler st api = ⟨notAuthResp, st, []⟩ ∧
    nhlMatchupsHandler st w api = ⟨notAuthResp, st, []⟩ ∧
    nhlTeamsHandler st api = ⟨notAuthResp, st, []⟩ := by
  refine ⟨?_, ?_, ?_, ?_⟩ <;>
    simp [testHandler, nhlLeaguesHandler, nhlMatchupsHandler, nhlTeamsHandler, h]

/-- C5 (witness): the empty store at a concrete stub API. -/
theorem c5_routes_401_witness :
    tokenTruthy none = false ∧
    (testHandler none (fun _ => .ok (.str "d5")) = ⟨notAuthResp, none, []⟩ ∧
     nhlLeaguesHandler none (fun _ => .ok (.str "d5")) = ⟨notAuthResp, none, []⟩ ∧
     nhlMatchupsHandler none none (fun _ => .ok (.str "d5")) = ⟨notAuthResp, none, []⟩ ∧
     nhlTeamsHandler none (fun _ => .ok (.str "d5")) = ⟨notAuthResp, none, []⟩) :=
  ⟨rfl, c5_routes_401_without_token none none (fun _ => .ok (.str "d5")) rfl⟩

/-- C6: `makeAuthenticatedRequest` invoked while the token slot is falsy
fails immediately with the unauthenticated error and issues no outbound GET. -/
theorem c6_helper_rejects_without_token (st : Option Json)
    (api : String → Except String Json) (url : String) (h : tokenTruthy st = false) :
    makeAuthenticatedRequest st api url = (.error .notAuthenticated, []) := by
  simp [makeAuthenticatedRequest, h]

/-- C6 (witness): the helper at the empty store and a concrete URL. -/
theorem c6_helper_rejects_witness :
    tokenTruthy none = false ∧
    makeAuthenticatedRequest none (fun _ => .ok (.str "d6")) "u6" =
      (.error .notAuthenticated, []) :=
  ⟨rfl, c6_helper_rejects_without_token none (fun _ => .ok (.str "d6")) "u6" rfl⟩

/-- C10: `/nhl-matchups` with `week` supplied as the empty string behaves
identically to `/nhl-matchups` with `week` absent — the `||` default applies
to every falsy value, so the scoped request is built with week `current`. -/
theorem c10_empty_week_equals_absent (st : Option Json)
    (api : String → Except String Json) :
    nhlMatchupsHandler st (some (.str "")) api = nhlMatchupsHandler st none api := rfl

/-- C7: with a token present, `/nhl-matchups` and `/nhl-teams` first fetch the
league list, extract the first league key by the fixed positional path
(`extractLeagueKey`), then issue exactly one second authenticated call scoped
to that league, and on success relay the second JSON body verbatim. -/
theorem c7_two_call_league_scoping (st : Option Json) (w : Option QueryVal)
    (api : String → Except String Json) (ld : Json) (lk : Option Json)
    (h1 : tokenTruthy st = true) (h2 : api leaguesApiUrl = .ok ld)
    (h3 : extractLeagueKey ld = .ok lk) :
    ((nhlMatchupsHandler st w api).calls =
        [⟨leaguesApiUrl, "Bearer " ++ jsTemplate st⟩,
         ⟨scoreboardApiUrl (jsTemplate lk) (weekString w), "Bearer " ++ jsTemplate st⟩] ∧
      ∀ md, api (scoreboardApiUrl (jsTemplate lk) (weekString w)) = .ok md →
        (nhlMatchupsHandler st w api).resp = ⟨200, .json md⟩) ∧
    ((nhlTeamsHandler st api).calls =
        [⟨leaguesApiUrl, "Bearer " ++ jsTemplate st⟩,
         ⟨teamsApiUrl (jsTemplate lk), "Bearer " ++ jsTemplate st⟩] ∧
      ∀ td, api (teamsApiUrl (jsTemplate lk)) = .ok td →
        (nhlTeamsHandler st api).resp = ⟨200, .json td⟩) := by
  refine ⟨⟨?_, ?_⟩, ⟨?_, ?_⟩⟩
  · cases hs : api (scoreboardApiUrl (jsTemplate lk) (weekString w)) <;>
      simp [nhlMatchupsHandler, makeAuthenticatedRequest, h1, h2, h3, hs]
  · intro md hmd
    simp [nhlMatchupsHandler, makeAuthenticatedRequest, h1, h2, h3, hmd]
  · cases hs : api (teamsApiUrl (jsTemplate lk)) <;>
      simp [nhlTeamsHandler, makeAuthenticatedRequest, h1, h2, h3, hs]
  · intro td htd
    simp [nhlTeamsHandler, makeAuthenticatedRequest, h1, h2, h3, htd]

/-- C7 (witness): the concrete fixture league list yields key `427.l.17` and
the two-call sequence at a concrete token. -/
theorem c7_two_call_witness :
    tokenTruthy (some (.str "tk7")) = true ∧
    sampleApi leaguesApiUrl = .ok sampleLeagueVal ∧
    extractLeagueKey sampleLeagueVal = .ok (some (.str "427.l.17")) ∧
    (nhlMatchupsHandler (some (.str "tk7")) none sampleApi).calls =
      [⟨leaguesApiUrl, "Bearer " ++ jsTemplate (some (.str "tk7"))⟩,
       ⟨scoreboardApiUrl (jsTemplate (some (.str "427.l.17"))) (weekString none),
         "Bearer " ++ jsTemplate (some (.str "tk7"))⟩] :=
  ⟨rfl, rfl, rfl,
    (c7_two_call_league_scoping (some (.str "tk7")) none sampleApi sampleLeagueVal
      (some (.str "427.l.17")) rfl rfl rfl).1.1⟩

/-- C8: with a token present, every data route answers a fixed route-specific
500 text — a literal mentioning neither the stored token nor the error
detail — whenever the outbound call it depends on rejects, and relays the
remote JSON body verbatim with status 200 on success. -/
theorem c8_fixed_500_and_verbatim_relay (st : Option Json) (w : Option QueryVal)
    (api : String → Except String Json) (h1 : tokenTruthy st = true) :
    (∀ e, api testApiUrl = .error e →
        (testHandler st api).resp = ⟨500, .text "Error making authenticated request"⟩) ∧
    (∀ d, api testApiUrl = .ok d → (testHandler st api).resp = ⟨200, .json d⟩) ∧
    (∀ e, api leaguesApiUrl = .error e →
        (nhlLeaguesHandler st api).resp =
          ⟨500, .text "Error fetching NHL league information"⟩) ∧
    (∀ d, api leaguesApiUrl = .ok d → (nhlLeaguesHandler st api).resp = ⟨200, .json d⟩) ∧
    (∀ e, api leaguesApiUrl = .error e →
        (nhlMatchupsHandler st w api).resp =
          ⟨500, .text "Error fetching NHL matchup information"⟩) ∧
    (∀ ld lk e, api leaguesApiUrl = .ok ld → extractLeagueKey ld = .ok lk →
        api (scoreboardApiUrl (jsTemplate lk) (weekString w)) = .error e →
        (nhlMatchupsHandler st w api).resp =
          ⟨500, .text "Error fetching NHL matchup information"⟩) ∧
    (∀ e, api leaguesApiUrl = .error e →
        (nhlTeamsHandler st api).resp = ⟨500, .text "Error fetching NHL team information"⟩) ∧
    (∀ ld lk e, api leaguesApiUrl = .ok ld → extractLeagueKey ld = .ok lk →
        api (teamsApiUrl (jsTemplate lk)) = .error e →
        (nhlTeamsHandler st api).resp =
          ⟨500, .text "Error fetching NHL team information"⟩) := by
  refine ⟨?_, ?_, ?_, ?_, ?_, ?_, ?_, ?_⟩
  · intro e he
    simp [testHandler, makeAuthenticatedRequest, h1, he]
  · intro d hd
    simp [testHandler, makeAuthenticatedRequest, h1, hd]
  · intro e he
    simp [nhlLeaguesHandler, makeAuthenticatedRequest, h1, he]
  · intro d hd
    simp [nhlLeaguesHandler, makeAuthenticatedRequest, h1, hd]
  · intro e he
    simp [nhlMatchupsHandler, makeAuthenticatedRequest, h1, he]
  · intro ld lk e hld hlk he
    simp [nhlMatchupsHandler, makeAuthenticatedRequest, h1, hld, hlk, he]
  · intro e he
    simp [nhlTeamsHandler, makeAuthenticatedRequest, h1, he]
  · intro ld lk e hld hlk he
    simp [nhlTeamsHandler, makeAuthenticatedRequest, h1, hld, hlk, he]

/-- C8 (witness): a concrete always-rejecting remote API at a concrete token
yields the fixed 500 text on `/test`. -/
theorem c8_fixed_500_witness :
    tokenTruthy (some (.str "tk8")) = true ∧
    ((fun _ => .error "boom" : String → Except String Json) testApiUrl = .error "boom") ∧
    (testHandler (some (.str "tk8")) (fun _ => .error "boom")).resp =
      ⟨500, .text "Error making authenticated request"⟩ :=
  ⟨rfl, rfl,
    (c8_fixed_500_and_verbatim_relay (some (.str "tk8")) none
      (fun _ => .error "boom") rfl).1 "boom" rfl⟩

/-- C9: `/nhl-matchups` invoked with no `week` parameter builds the scoped
scoreboard request with the literal week value `current`. -/
theorem c9_week_defaults_to_current (st : Option Json)
    (api : String → Except String Json) (ld : Json) (lk : Option Json)
    (h1 : tokenTruthy st = true) (h2 : api leaguesApiUrl = .ok ld)
    (h3 : extractLeagueKey ld = .ok lk) :
    (nhlMatchupsHandler st none api).calls =
      [⟨leaguesApiUrl, "Bearer " ++ jsTemplate st⟩,
       ⟨scoreboardApiUrl (jsTemplate lk) "current", "Bearer " ++ jsTemplate st⟩] := by
  cases hs : api (scoreboardApiUrl (jsTemplate lk) "current") <;>
    simp [nhlMatchupsHandler, makeAuthenticatedRequest, weekString, h1, h2, h3, hs]

/-- C9 (witness): the default week at the concrete fixture. -/
theorem c9_week_default_witness :
    tokenTruthy (some (.str "tk9")) = true ∧
    (nhlMatchupsHandler (some (.str "tk9")) none sampleApi).calls =
      [⟨leaguesApiUrl, "Bearer " ++ jsTemplate (some (.str "tk9"))⟩,
       ⟨scoreboardApiUrl (jsTemplate (some (.str "427.l.17"))) "current",
         "Bearer " ++ jsTemplate (some (.str "tk9"))⟩] :=
  ⟨rfl, c9_week_defaults_to_current (some (.str "tk9")) sampleApi sampleLeagueVal
    (some (.str "427.l.17")) rfl rfl rfl⟩
